import Mathlib

/-!
Verification of the PacketInsight core analytics engine
(`insight/core.py`: `PacketAnalyzer` and `BaselineManager`, plus
`insight/utils.py`: `safe_divide`) against its natural-language
specification.

Python dictionaries are embedded as insertion-ordered association lists
(`dget` / `dset` / `dincr` / `dpop` mirror `d[k]`, `d[k] = v`,
`defaultdict(int)[k] += 1` and `d.pop(k)`).  Timestamps and derived
metrics are embedded as exact rationals.  A per-record processing fault
(an exception raised inside `update_stats`'s try block) is embedded by
an `Except` result whose error value carries the partially updated
state, because the Python code mutates the dictionary in place, so the
updates that ran before the exception survive it.
-/

namespace PacketInsight

/-- Python `d[k]` / `k in d` lookup on an insertion-ordered association list. -/
def dget {K V : Type} [DecidableEq K] : List (K × V) → K → Option V
  | [], _ => none
  | (k', v) :: rest, k => if k' = k then some v else dget rest k

/-- Python `d[k] = v`: replace in place if the key is present, else append. -/
def dset {K V : Type} [DecidableEq K] : List (K × V) → K → V → List (K × V)
  | [], k, v => [(k, v)]
  | (k', v') :: rest, k, v =>
    if k' = k then (k', v) :: rest else (k', v') :: dset rest k v

/-- Python `defaultdict(int)`: `d[k] += 1` with default 0. -/
def dincr {K : Type} [DecidableEq K] : List (K × Nat) → K → List (K × Nat)
  | [], k => [(k, 1)]
  | (k', v) :: rest, k =>
    if k' = k then (k', v + 1) :: rest else (k', v) :: dincr rest k

/-- Python `d.pop(k)`: drop the entry for `k`. -/
def dpop {K V : Type} [DecidableEq K] : List (K × V) → K → List (K × V)
  | [], _ => []
  | (k', v) :: rest, k => if k' = k then rest else (k', v) :: dpop rest k

/-- Python `sum(d.values())` for an integer-valued dictionary. -/
def sumValues {K : Type} : List (K × Nat) → Nat
  | [] => 0
  | (_, v) :: rest => v + sumValues rest

/-- Representation invariant of an embedded Python dictionary: keys are distinct. -/
def dictWF {K V : Type} (d : List (K × V)) : Prop := (d.map Prod.fst).Nodup

theorem dget_dset_self {K V : Type} [DecidableEq K] (d : List (K × V)) (k : K) (v : V) :
    dget (dset d k v) k = some v := by
  induction d with
  | nil => simp [dget, dset]
  | cons hd rest ih =>
    obtain ⟨k', v'⟩ := hd
    by_cases h : k' = k <;> simp [dget, dset, h, ih]

theorem dget_dset_ne {K V : Type} [DecidableEq K] (d : List (K × V)) (k k' : K) (v : V)
    (h : k' ≠ k) : dget (dset d k' v) k = dget d k := by
  induction d with
  | nil => simp [dget, dset, h]
  | cons hd rest ih =>
    obtain ⟨k₀, v₀⟩ := hd
    by_cases h₀ : k₀ = k' <;> by_cases h₁ : k₀ = k <;>
      simp_all [dget, dset]

theorem sumValues_dincr {K : Type} [DecidableEq K] (d : List (K × Nat)) (k : K) :
    sumValues (dincr d k) = sumValues d + 1 := by
  induction d with
  | nil => simp [dincr, sumValues]
  | cons hd rest ih =>
    obtain ⟨k', v⟩ := hd
    by_cases h : k' = k <;> simp [dincr, sumValues, h, ih] <;> omega

theorem dget_eq_none_of_not_mem {K V : Type} [DecidableEq K] (d : List (K × V)) (k : K)
    (h : k ∉ d.map Prod.fst) : dget d k = none := by
  induction d with
  | nil => rfl
  | cons hd rest ih =>
    obtain ⟨k', v⟩ := hd
    simp only [List.map_cons, List.mem_cons] at h
    push_neg at h
    simp [dget, Ne.symm h.1, ih h.2]

theorem dget_dpop_self {K V : Type} [DecidableEq K] (d : List (K × V)) (k : K)
    (h : dictWF d) : dget (dpop d k) k = none := by
  induction d with
  | nil => rfl
  | cons hd rest ih =>
    obtain ⟨k', v⟩ := hd
    unfold dictWF at h
    simp only [List.map_cons, List.nodup_cons] at h
    by_cases hk : k' = k
    · subst hk
      simpa [dpop] using dget_eq_none_of_not_mem rest k' h.1
    · simp [dpop, hk, dget, ih h.2]

/-! ## Packet records

One decoded packet as `PacketAnalyzer.update_stats` sees it.  A layer
sub-record is `some` exactly when the corresponding `'LAYER' in packet`
test succeeds; an optional field inside a layer is `some` exactly when
the corresponding `hasattr` test succeeds (a `none` access raises
`AttributeError`, which the per-layer analyzers absorb). -/

/-- `packet.ip` as read by `_analyze_ip_layer` (src/dst addresses as strings). -/
structure IPLayer where
  src : String
  dst : String
deriving DecidableEq

/-- `packet.tcp` as read by `_analyze_tcp_layer`: `analysis_retransmission` and
`analysis_acks_frame` record the `hasattr` probes, `flags` is `str(packet.tcp.flags)`. -/
structure TCPLayer where
  analysis_retransmission : Bool
  flags : String
  analysis_acks_frame : Bool
deriving DecidableEq

/-- `packet.udp` as read by `_analyze_udp_layer` (ports are pyshark strings). -/
structure UDPLayer where
  srcport : String
  dstport : String
deriving DecidableEq

/-- `packet.http`: `response_code` is `some` when `hasattr(packet.http, 'response_code')`. -/
structure HTTPLayer where
  response_code : Option String
deriving DecidableEq

/-- `packet.tls` fields probed by `_analyze_tls_layer` via `hasattr`. -/
structure TLSLayer where
  record_content_type : Option String
  handshake_type : Option String
  handshake_version : Option String
  handshake_ciphersuite : Option String
deriving DecidableEq

/-- `packet.dns` as read by `_analyze_dns_layer`: `flags_response` and `id` are
always exposed on a decoded DNS layer; `response_time` records the `hasattr`
probe; `qry_name` is `some` when `hasattr(packet.dns, 'qry_name')`, and
`qry_type` accompanies it. -/
structure DNSLayer where
  flags_response : String
  response_time : Bool
  qry_name : Option String
  qry_type : String
  id : String
deriving DecidableEq

/-- `packet.dhcp`: `option_dhcp_message_type` is `some` when the `hasattr` probe succeeds. -/
structure DHCPLayer where
  option_dhcp_message_type : Option String
deriving DecidableEq

/-- One decoded packet record.

`sniff_timestamp = none` embeds a record whose `float(packet.sniff_timestamp)`
raises (unparseable timestamp string); `length = some none` embeds a record
with a `length` attribute whose `int(packet.length)` raises.  Both exceptions
escape to `update_stats`'s own `except Exception` handler.
`hasDHCPorBOOTP` embeds `'DHCP' in packet or 'BOOTP' in packet`, while `dhcp`
embeds the separate `hasattr(packet, 'dhcp')` probe inside the DHCP analyzer. -/
structure Packet where
  sniff_timestamp : Option ℚ
  length : Option (Option ℤ)
  transport_layer : Option String
  highest_layer : String
  ip : Option IPLayer
  tcp : Option TCPLayer
  udp : Option UDPLayer
  http : Option HTTPLayer
  tls : Option TLSLayer
  dns : Option DNSLayer
  hasDHCPorBOOTP : Bool
  dhcp : Option DHCPLayer
deriving DecidableEq

/-- A key of the `conversations` dictionary: `(src, dst)` tuples are inserted
by `_analyze_ip_layer`; plain strings can also appear (the dictionary is
heterogeneous in Python, and `_cleanup_stats` tests `isinstance(k, tuple)`). -/
inductive ConvKey
  | pair (src dst : String)
  | str (s : String)
deriving DecidableEq

/-- UDP flow key `(packet.ip.src, packet.ip.dst, packet.udp.srcport, packet.udp.dstport)`. -/
abbrev FlowKey := String × String × String × String

/-! ## The statistics state -/

/-- The mutable statistics dictionary built by `PacketAnalyzer.initialize_stats`.
`start_timestamp = none` embeds the `float('inf')` sentinel. -/
structure Stats where
  packet_count : ℕ
  total_bytes : ℤ
  start_time : ℚ
  start_timestamp : Option ℚ
  end_timestamp : ℚ
  retransmissions : ℕ
  resets : ℕ
  dns_issues : ℕ
  http_errors : List (String × ℕ)
  tcp_syn_delays : List ℚ
  udp_jitter : List ℚ
  top_talkers : List (String × ℕ)
  protocols : List (String × ℕ)
  conversations : List (ConvKey × ℕ)
  throughput_samples : List (ℚ × ℤ)
  prev_udp_time : List (FlowKey × ℚ)
  malformed_packets : ℕ
  tls_handshakes : ℕ
  tls_versions : List (String × ℕ)
  tls_cipher_suites : List (String × ℕ)
  tls_alerts : ℕ
  expired_certs : List String
  self_signed_certs : List String
  dns_queries : List (String × ℕ)
  dns_response_times : List ℚ
  dns_record_types : List (String × ℕ)
  pending_dns_queries : List (String × ℚ)
  dhcp_servers : List (String × ℕ)
  dhcp_discover : ℕ
  dhcp_offer : ℕ
  dhcp_request : ℕ
  dhcp_ack : ℕ
  dhcp_nak : ℕ
deriving DecidableEq

/-- `PacketAnalyzer.initialize_stats` (`now` stands for `time.time()`). -/
def initialize_stats (now : ℚ) : Stats where
  packet_count := 0
  total_bytes := 0
  start_time := now
  start_timestamp := none
  end_timestamp := 0
  retransmissions := 0
  resets := 0
  dns_issues := 0
  http_errors := []
  tcp_syn_delays := []
  udp_jitter := []
  top_talkers := []
  protocols := []
  conversations := []
  throughput_samples := []
  prev_udp_time := []
  malformed_packets := 0
  tls_handshakes := 0
  tls_versions := []
  tls_cipher_suites := []
  tls_alerts := 0
  expired_certs := []
  self_signed_certs := []
  dns_queries := []
  dns_response_times := []
  dns_record_types := []
  pending_dns_queries := []
  dhcp_servers := []
  dhcp_discover := 0
  dhcp_offer := 0
  dhcp_request := 0
  dhcp_ack := 0
  dhcp_nak := 0

/-! ## Per-layer analyzers (`PacketAnalyzer._analyze_*_layer`)

Each Python analyzer wraps its body in `try/except AttributeError`, absorbing
a missing-field access; the embedding returns the state unchanged from the
point of the failed access on.  The embedded analyzers therefore are total
functions on `Stats`. -/

/-- Python `needle in hay` substring test (for `'RST' in str(packet.tcp.flags)`). -/
def strContainsSub (hay needle : String) : Bool :=
  (List.range (hay.data.length + 1)).any fun i => needle.data.isPrefixOf (hay.data.drop i)

/-- `_analyze_ip_layer` (lines 130-138): tally both endpoints in `top_talkers`
and the observed ordered pair in `conversations`. -/
def analyze_ip_layer (stats : Stats) (p : Packet) : Stats :=
  match p.ip with
  | none => stats
  | some ip =>
    { stats with
      top_talkers := dincr (dincr stats.top_talkers ip.src) ip.dst
      conversations := dincr stats.conversations (ConvKey.pair ip.src ip.dst) }

/-- `_analyze_tcp_layer` (lines 140-150): retransmission, RST and pending-SYN tallies. -/
def analyze_tcp_layer (stats : Stats) (p : Packet) (current_time : ℚ) : Stats :=
  match p.tcp with
  | none => stats
  | some tcp =>
    let stats :=
      if tcp.analysis_retransmission then
        { stats with retransmissions := stats.retransmissions + 1 }
      else stats
    let stats :=
      if strContainsSub tcp.flags "RST" then
        { stats with resets := stats.resets + 1 }
      else stats
    if strContainsSub tcp.flags "SYN" && !tcp.analysis_acks_frame then
      { stats with tcp_syn_delays := stats.tcp_syn_delays ++ [current_time] }
    else stats

/-- `_analyze_udp_layer` (lines 152-161): same-flow inter-arrival jitter via the
`prev_udp_time` correlation table. -/
def analyze_udp_layer (stats : Stats) (p : Packet) (current_time : ℚ) : Stats :=
  match p.udp, p.ip with
  | some udp, some ip =>
    let flow_key : FlowKey := (ip.src, ip.dst, udp.srcport, udp.dstport)
    let stats :=
      match dget stats.prev_udp_time flow_key with
      | some prev =>
        { stats with udp_jitter := stats.udp_jitter ++ [current_time - prev] }
      | none => stats
    { stats with prev_udp_time := dset stats.prev_udp_time flow_key current_time }
  | _, _ => stats

/-- `_analyze_http_layer` (lines 163-171): tally 4xx/5xx response codes. -/
def analyze_http_layer (stats : Stats) (p : Packet) : Stats :=
  match p.http with
  | none => stats
  | some http =>
    match http.response_code with
    | none => stats
    | some code =>
      if code.startsWith "4" || code.startsWith "5" then
        { stats with http_errors := dincr stats.http_errors code }
      else stats

/-- `_analyze_tls_layer` (lines 173-192): handshake/alert counters and
Server Hello version/cipher tallies. -/
def analyze_tls_layer (stats : Stats) (p : Packet) : Stats :=
  match p.tls with
  | none => stats
  | some tls =>
    let stats :=
      if tls.record_content_type = some "22" then
        { stats with tls_handshakes := stats.tls_handshakes + 1 }
      else stats
    let stats :=
      if tls.handshake_type = some "2" then
        let stats :=
          match tls.handshake_version with
          | some v => { stats with tls_versions := dincr stats.tls_versions v }
          | none => stats
        match tls.handshake_ciphersuite with
        | some c => { stats with tls_cipher_suites := dincr stats.tls_cipher_suites c }
        | none => stats
      else stats
    if tls.record_content_type = some "21" then
      { stats with tls_alerts := stats.tls_alerts + 1 }
    else stats

/-- `_analyze_dns_layer` (lines 194-217): issue counter, query-name/type
tallies, and query/response round-trip correlation via `pending_dns_queries`. -/
def analyze_dns_layer (stats : Stats) (p : Packet) (current_time : ℚ) : Stats :=
  match p.dns with
  | none => stats
  | some dns =>
    let stats :=
      if dns.flags_response = "0" && !dns.response_time then
        { stats with dns_issues := stats.dns_issues + 1 }
      else stats
    let stats :=
      match dns.qry_name with
      | some name =>
        { stats with
          dns_queries := dincr stats.dns_queries name
          dns_record_types := dincr stats.dns_record_types dns.qry_type }
      | none => stats
    if dns.flags_response = "0" then
      { stats with pending_dns_queries := dset stats.pending_dns_queries dns.id current_time }
    else if dns.flags_response = "1" then
      match dget stats.pending_dns_queries dns.id with
      | some pending =>
        { stats with
          dns_response_times := stats.dns_response_times ++ [current_time - pending]
          pending_dns_queries := dpop stats.pending_dns_queries dns.id }
      | none => stats
    else stats

/-- `_analyze_dhcp_layer` (lines 219-239): DHCP message-type counters and
per-server tally on offers. -/
def analyze_dhcp_layer (stats : Stats) (p : Packet) : Stats :=
  match p.dhcp with
  | none => stats
  | some dhcp =>
    match dhcp.option_dhcp_message_type with
    | none => stats
    | some t =>
      if t = "1" then { stats with dhcp_discover := stats.dhcp_discover + 1 }
      else if t = "2" then
        let stats := { stats with dhcp_offer := stats.dhcp_offer + 1 }
        match p.ip with
        | some ip => { stats with dhcp_servers := dincr stats.dhcp_servers ip.src }
        | none => stats
      else if t = "3" then { stats with dhcp_request := stats.dhcp_request + 1 }
      else if t = "5" then { stats with dhcp_ack := stats.dhcp_ack + 1 }
      else if t = "6" then { stats with dhcp_nak := stats.dhcp_nak + 1 }
      else stats

/-! ## `PacketAnalyzer.update_stats` (lines 81-128) -/

/-- Python truthiness of `packet.transport_layer or packet.highest_layer`
(`None` and the empty string are falsy). -/
def pyStrOr (a : Option String) (b : String) : String :=
  match a with
  | none => b
  | some s => if s = "" then b else s

/-- `min(stats['start_timestamp'], current_time)` with the `float('inf')`
sentinel embedded as `none`. -/
def minStart (st : Option ℚ) (t : ℚ) : Option ℚ :=
  match st with
  | none => some t
  | some s => some (min s t)

/-- Lines 92-95: `if hasattr(packet, 'length')`, then `int(packet.length)`
(which may raise) and the byte/throughput updates. -/
def lengthStep (stats : Stats) (p : Packet) (current_time : ℚ) : Except Stats Stats :=
  match p.length with
  | none => Except.ok stats
  | some none => Except.error stats
  | some (some n) =>
    Except.ok { stats with
      total_bytes := stats.total_bytes + n
      throughput_samples := stats.throughput_samples ++ [(current_time, n)] }

/-- Lines 101-124: the chain of per-layer analyzer calls, each guarded by the
`'LAYER' in packet` test. -/
def apply_layer_analyzers (stats : Stats) (p : Packet) (current_time : ℚ) : Stats :=
  let stats := if p.ip.isSome then analyze_ip_layer stats p else stats
  let stats := if p.tcp.isSome then analyze_tcp_layer stats p current_time else stats
  let stats := if p.udp.isSome then analyze_udp_layer stats p current_time else stats
  let stats := if p.http.isSome then analyze_http_layer stats p else stats
  let stats := if p.tls.isSome then analyze_tls_layer stats p else stats
  let stats := if p.dns.isSome then analyze_dns_layer stats p current_time else stats
  if p.hasDHCPorBOOTP then analyze_dhcp_layer stats p else stats

/-- The `try` block of `update_stats`.  An `Except.error` result carries the
state as already mutated when the exception was raised (Python mutates the
dictionary in place). -/
def update_stats_body (stats : Stats) (p : Packet) : Except Stats Stats :=
  let stats := { stats with packet_count := stats.packet_count + 1 }
  match p.sniff_timestamp with
  | none => Except.error stats
  | some current_time =>
    let stats := { stats with
      start_timestamp := minStart stats.start_timestamp current_time
      end_timestamp := max stats.end_timestamp current_time }
    match lengthStep stats p current_time with
    | Except.error s => Except.error s
    | Except.ok stats =>
      let protocol := pyStrOr p.transport_layer p.highest_layer
      let stats := { stats with protocols := dincr stats.protocols protocol }
      Except.ok (apply_layer_analyzers stats p current_time)

/-- `PacketAnalyzer.update_stats`: the `except Exception` handler logs and
increments `malformed_packets`; no exception reaches the caller. -/
def update_stats (stats : Stats) (p : Packet) : Stats :=
  match update_stats_body stats p with
  | Except.ok s => s
  | Except.error s => { s with malformed_packets := s.malformed_packets + 1 }

/-- The per-packet loop of `analyze_pcap` (line 263-264): one `update_stats`
call per record, in delivery order. -/
def process (stats : Stats) (ps : List Packet) : Stats :=
  ps.foldl update_stats stats

/-! ## `PacketAnalyzer._cleanup_stats` (lines 290-305)

The Python code deletes the `prev_udp_time` key and rewrites `conversations`
with string keys; every other key of the dictionary is left in place.  The
finalized snapshot is embedded as a structure without a `prev_udp_time` field
and with string-keyed conversations. -/

/-- The string key `_cleanup_stats` builds for one `conversations` entry:
`"_".join(str(item) for item in k)` for a `(src, dst)` tuple, the key itself
otherwise. -/
def joinKey : ConvKey → String
  | ConvKey.pair src dst => src ++ "_" ++ dst
  | ConvKey.str s => s

/-- Lines 296-305: rebuild the `conversations` dictionary with string keys,
iterating the entries in insertion order (`conversations[new_key] = v`). -/
def convertConversations (l : List (ConvKey × ℕ)) : List (String × ℕ) :=
  l.foldl (fun acc kv => dset acc (joinKey kv.1) kv.2) []

/-- The finalized snapshot: the statistics dictionary after `_cleanup_stats`,
which has no `prev_udp_time` key and string-keyed `conversations`. -/
structure CleanStats where
  packet_count : ℕ
  total_bytes : ℤ
  start_time : ℚ
  start_timestamp : Option ℚ
  end_timestamp : ℚ
  retransmissions : ℕ
  resets : ℕ
  dns_issues : ℕ
  http_errors : List (String × ℕ)
  tcp_syn_delays : List ℚ
  udp_jitter : List ℚ
  top_talkers : List (String × ℕ)
  protocols : List (String × ℕ)
  conversations : List (String × ℕ)
  throughput_samples : List (ℚ × ℤ)
  malformed_packets : ℕ
  tls_handshakes : ℕ
  tls_versions : List (String × ℕ)
  tls_cipher_suites : List (String × ℕ)
  tls_alerts : ℕ
  expired_certs : List String
  self_signed_certs : List String
  dns_queries : List (String × ℕ)
  dns_response_times : List ℚ
  dns_record_types : List (String × ℕ)
  pending_dns_queries : List (String × ℚ)
  dhcp_servers : List (String × ℕ)
  dhcp_discover : ℕ
  dhcp_offer : ℕ
  dhcp_request : ℕ
  dhcp_ack : ℕ
  dhcp_nak : ℕ
deriving DecidableEq

/-- `PacketAnalyzer._cleanup_stats`: drop `prev_udp_time`, stringify the
`conversations` keys, and pass every other entry through unchanged (the
code touches no other key; in particular `pending_dns_queries` is kept). -/
def cleanup_stats (stats : Stats) : CleanStats where
  packet_count := stats.packet_count
  total_bytes := stats.total_bytes
  start_time := stats.start_time
  start_timestamp := stats.start_timestamp
  end_timestamp := stats.end_timestamp
  retransmissions := stats.retransmissions
  resets := stats.resets
  dns_issues := stats.dns_issues
  http_errors := stats.http_errors
  tcp_syn_delays := stats.tcp_syn_delays
  udp_jitter := stats.udp_jitter
  top_talkers := stats.top_talkers
  protocols := stats.protocols
  conversations := convertConversations stats.conversations
  throughput_samples := stats.throughput_samples
  malformed_packets := stats.malformed_packets
  tls_handshakes := stats.tls_handshakes
  tls_versions := stats.tls_versions
  tls_cipher_suites := stats.tls_cipher_suites
  tls_alerts := stats.tls_alerts
  expired_certs := stats.expired_certs
  self_signed_certs := stats.self_signed_certs
  dns_queries := stats.dns_queries
  dns_response_times := stats.dns_response_times
  dns_record_types := stats.dns_record_types
  pending_dns_queries := stats.pending_dns_queries
  dhcp_servers := stats.dhcp_servers
  dhcp_discover := stats.dhcp_discover
  dhcp_offer := stats.dhcp_offer
  dhcp_request := stats.dhcp_request
  dhcp_ack := stats.dhcp_ack
  dhcp_nak := stats.dhcp_nak

/-! ## `BaselineManager` (lines 308-377) and `utils.safe_divide`

The persisted side is embedded as an explicit file-system map from paths to
file contents.  A path is embedded as pathlib decomposes a file name: a stem
plus a suffix, so that `with_suffix('.tmp')` is faithful (in particular it is
the identity on a path whose suffix already is `.tmp`).  A failure during
`save_baseline` is injected through a `WriteOutcome` parameter; `json.dump`
over an open `'w'`-mode file leaves partial bytes behind when it fails, which
the model records as unparseable content. -/

/-- `utils.safe_divide` (utils.py lines 22-26). -/
def safe_divide (numerator denominator : ℚ) : ℚ :=
  if denominator = 0 then 0 else numerator / denominator

/-- A `pathlib.Path` file name decomposed as `stem + suffix`. -/
structure PyPath where
  stem : String
  suffix : String
deriving DecidableEq

/-- `Path.with_suffix`: replace the suffix, keep the stem. -/
def withSuffix (p : PyPath) (s : String) : PyPath :=
  { p with suffix := s }

/-- The five derived metrics of one baseline bucket (lines 357-369). -/
structure BaselineMetrics where
  tcp_retransmission_rate : ℚ
  tcp_resets : ℚ
  avg_tcp_handshake_delay : ℚ
  avg_udp_jitter : ℚ
  http_error_rate : ℚ
deriving DecidableEq

/-- One value of the persisted JSON object: a metrics bucket written by the
system, the empty object `\x7b\x7d`, or any other JSON value found in a
hand-edited file. -/
inductive BucketVal
  | metrics (m : BaselineMetrics)
  | emptyObj
  | raw (s : String)
deriving DecidableEq

/-- The parsed persisted baseline file: a JSON object, insertion-ordered. -/
abbrev BaselineData := List (String × BucketVal)

/-- Content of one file on disk: a parseable baseline object, or bytes that
`json.load` rejects (e.g. the remains of an interrupted `json.dump`). -/
inductive FileContent
  | valid (data : BaselineData)
  | corrupt (s : String)
deriving DecidableEq

/-- The file system visible to `BaselineManager`: path to content, absent
paths not listed. -/
abbrev FS := List (PyPath × FileContent)

/-- `BaselineManager.get_baseline_type` (lines 315-318), with the wall clock
passed in as `datetime.now().weekday()` (0 = Monday). -/
def get_baseline_type (weekday : ℕ) : String :=
  if weekday < 5 then "workday" else "weekend"

/-- `BaselineManager.load_baseline` (lines 320-328): `ok none` when the file
does not exist, `error` (a raised `BaselineError`) when it exists but cannot
be parsed. -/
def load_baseline (fs : FS) (path : PyPath) : Except Unit (Option BaselineData) :=
  match dget fs path with
  | none => Except.ok none
  | some (FileContent.valid data) => Except.ok (some data)
  | some (FileContent.corrupt _) => Except.error ()

/-- How one `save_baseline` call can go: the write and rename both succeed;
the write raises after the temp file was opened (leaving partial bytes
`partialData` in it); or the write completes and the rename raises. -/
inductive WriteOutcome
  | ok
  | failDuringWrite (partialData : String)
  | failDuringRename
deriving DecidableEq

/-- `BaselineManager.save_baseline` (lines 330-345): write the whole record to
the `.tmp` sibling, then atomically rename it over the destination.  The
returned `Bool` is `false` when the call raises `BaselineError` (the
`mkdir` of the parent directory touches no file and is not modeled). -/
def save_baseline (fs : FS) (path : PyPath) (data : BaselineData) (w : WriteOutcome) :
    FS × Bool :=
  let temp := withSuffix path ".tmp"
  match w with
  | WriteOutcome.ok =>
    let fs := dset fs temp (FileContent.valid data)
    match dget fs temp with
    | some c => (dset (dpop fs temp) path c, true)
    | none => (fs, true)
  | WriteOutcome.failDuringWrite partialData =>
    (dset fs temp (FileContent.corrupt partialData), false)
  | WriteOutcome.failDuringRename =>
    (dset fs temp (FileContent.valid data), false)

/-- The metrics bucket computed inline at lines 357-369 of `update_baseline`. -/
def compute_metrics (stats : Stats) : BaselineMetrics where
  tcp_retransmission_rate := safe_divide stats.retransmissions stats.packet_count
  tcp_resets := stats.resets
  avg_tcp_handshake_delay :=
    if stats.tcp_syn_delays ≠ [] then
      safe_divide stats.tcp_syn_delays.sum stats.tcp_syn_delays.length
    else 0
  avg_udp_jitter :=
    if stats.udp_jitter ≠ [] then
      safe_divide stats.udp_jitter.sum stats.udp_jitter.length
    else 0
  http_error_rate := safe_divide (sumValues stats.http_errors) stats.packet_count

/-- The default record of line 354: `\x7b"workday": \x7b\x7d, "weekend": \x7b\x7d\x7d`. -/
def default_baseline : BaselineData :=
  [("workday", BucketVal.emptyObj), ("weekend", BucketVal.emptyObj)]

/-- Python `self.load_baseline() or default` at line 354: `None` and the empty
dictionary are falsy. -/
def pyDictOr (loaded : Option BaselineData) (dflt : BaselineData) : BaselineData :=
  match loaded with
  | none => dflt
  | some d => if d = [] then dflt else d

/-- The `try` block of `update_baseline` (lines 349-373).  The `Except.error`
result is a raised `BaselineError`: from the empty-capture guard, from
`load_baseline`, or from `save_baseline`; the file system at that point is
returned alongside. -/
def update_baseline_body (fs : FS) (path : PyPath) (weekday : ℕ) (stats : Stats)
    (w : WriteOutcome) : FS × Except Unit Bool :=
  if stats.packet_count = 0 then (fs, Except.error ())
  else
    match load_baseline fs path with
    | Except.error _ => (fs, Except.error ())
    | Except.ok loaded =>
      let baseline_type := get_baseline_type weekday
      let baseline_data := pyDictOr loaded default_baseline
      let baseline_data :=
        dset baseline_data baseline_type (BucketVal.metrics (compute_metrics stats))
      match save_baseline fs path baseline_data w with
      | (fs', true) => (fs', Except.ok true)
      | (fs', false) => (fs', Except.error ())

/-- `BaselineManager.update_baseline` (lines 347-377): the `except Exception`
handler at line 375 catches every raised `BaselineError`, logs, and returns
`False`; a normal run returns `True`.  The caller never sees an exception. -/
def update_baseline (fs : FS) (path : PyPath) (weekday : ℕ) (stats : Stats)
    (w : WriteOutcome) : FS × Bool :=
  match update_baseline_body fs path weekday stats w with
  | (fs', Except.ok b) => (fs', b)
  | (fs', Except.error _) => (fs', false)

/-! ## Concrete records used by witnesses and counterexamples -/

/-- A minimal well-formed record: parseable timestamp, no `length` attribute,
no decoded layers beyond the protocol name. -/
def basePkt : Packet where
  sniff_timestamp := some 0
  length := none
  transport_layer := some "UDP"
  highest_layer := "UDP"
  ip := none
  tcp := none
  udp := none
  http := none
  tls := none
  dns := none
  hasDHCPorBOOTP := false
  dhcp := none

/-- A record whose `float(packet.sniff_timestamp)` raises: the first statement
of `update_stats`'s try block that can fault. -/
def badPkt : Packet :=
  { basePkt with sniff_timestamp := none }

/-- Whether the try block of `update_stats` raises on this state and record. -/
def update_faulted (s : Stats) (p : Packet) : Bool :=
  match update_stats_body s p with
  | Except.error _ => true
  | Except.ok _ => false

/-! ## Frame lemmas for the per-layer analyzers

No analyzer touches `protocols`, `malformed_packets` or `packet_count`;
those three counters are updated only in the body of `update_stats` itself. -/

theorem analyze_ip_layer_frame (s : Stats) (p : Packet) :
    (analyze_ip_layer s p).protocols = s.protocols ∧
    (analyze_ip_layer s p).malformed_packets = s.malformed_packets ∧
    (analyze_ip_layer s p).packet_count = s.packet_count := by
  unfold analyze_ip_layer
  cases p.ip
  all_goals simp

theorem analyze_tcp_layer_frame (s : Stats) (p : Packet) (t : ℚ) :
    (analyze_tcp_layer s p t).protocols = s.protocols ∧
    (analyze_tcp_layer s p t).malformed_packets = s.malformed_packets ∧
    (analyze_tcp_layer s p t).packet_count = s.packet_count := by
  unfold analyze_tcp_layer
  cases p.tcp
  all_goals try simp only []
  all_goals repeat' split
  all_goals simp

theorem analyze_udp_layer_frame (s : Stats) (p : Packet) (t : ℚ) :
    (analyze_udp_layer s p t).protocols = s.protocols ∧
    (analyze_udp_layer s p t).malformed_packets = s.malformed_packets ∧
    (analyze_udp_layer s p t).packet_count = s.packet_count := by
  unfold analyze_udp_layer
  cases p.udp <;> cases p.ip
  all_goals try simp only []
  all_goals repeat' split
  all_goals simp

theorem analyze_http_layer_frame (s : Stats) (p : Packet) :
    (analyze_http_layer s p).protocols = s.protocols ∧
    (analyze_http_layer s p).malformed_packets = s.malformed_packets ∧
    (analyze_http_layer s p).packet_count = s.packet_count := by
  unfold analyze_http_layer
  cases p.http
  all_goals try simp only []
  all_goals repeat' split
  all_goals simp

theorem analyze_tls_layer_frame (s : Stats) (p : Packet) :
    (analyze_tls_layer s p).protocols = s.protocols ∧
    (analyze_tls_layer s p).malformed_packets = s.malformed_packets ∧
    (analyze_tls_layer s p).packet_count = s.packet_count := by
  unfold analyze_tls_layer
  cases p.tls
  all_goals try simp only []
  all_goals repeat' split
  all_goals simp

theorem analyze_dns_layer_frame (s : Stats) (p : Packet) (t : ℚ) :
    (analyze_dns_layer s p t).protocols = s.protocols ∧
    (analyze_dns_layer s p t).malformed_packets = s.malformed_packets ∧
    (analyze_dns_layer s p t).packet_count = s.packet_count := by
  unfold analyze_dns_layer
  cases p.dns
  all_goals try simp only []
  all_goals repeat' split
  all_goals simp

theorem analyze_dhcp_layer_frame (s : Stats) (p : Packet) :
    (analyze_dhcp_layer s p).protocols = s.protocols ∧
    (analyze_dhcp_layer s p).malformed_packets = s.malformed_packets ∧
    (analyze_dhcp_layer s p).packet_count = s.packet_count := by
  unfold analyze_dhcp_layer
  cases p.dhcp
  all_goals try simp only []
  all_goals repeat' split
  all_goals simp

theorem apply_layer_analyzers_frame (s : Stats) (p : Packet) (t : ℚ) :
    (apply_layer_analyzers s p t).protocols = s.protocols ∧
    (apply_layer_analyzers s p t).malformed_packets = s.malformed_packets ∧
    (apply_layer_analyzers s p t).packet_count = s.packet_count := by
  unfold apply_layer_analyzers
  split_ifs <;>
    simp only [analyze_ip_layer_frame, analyze_tcp_layer_frame, analyze_udp_layer_frame,
      analyze_http_layer_frame, analyze_tls_layer_frame, analyze_dns_layer_frame,
      analyze_dhcp_layer_frame, and_self]

/-! ## Claim C1: per-record fault handling in `update_stats` -/

/-- C1 (amended): `update_stats` never propagates an exception: a fault
raised while evaluating the per-record rules yields the normal return of the
handler state.  The handler increments `malformed_packets` by exactly 1, but
the updates already executed before the fault point survive (the dictionary is
mutated in place): in particular `packet_count` has already been incremented
by 1 for the faulting record.  All counters other than `packet_count`, the
time range (`start_timestamp`, `end_timestamp`) and `malformed_packets` are
left exactly as they were before the call. -/
theorem C1_update_stats_fault_isolation (s : Stats) (p : Packet) (s' : Stats)
    (h : update_stats_body s p = Except.error s') :
    update_stats s p = { s' with malformed_packets := s'.malformed_packets + 1 } ∧
    s'.malformed_packets = s.malformed_packets ∧
    s'.packet_count = s.packet_count + 1 ∧
    s'.total_bytes = s.total_bytes ∧
    s'.retransmissions = s.retransmissions ∧
    s'.resets = s.resets ∧
    s'.dns_issues = s.dns_issues ∧
    s'.http_errors = s.http_errors ∧
    s'.tcp_syn_delays = s.tcp_syn_delays ∧
    s'.udp_jitter = s.udp_jitter ∧
    s'.top_talkers = s.top_talkers ∧
    s'.protocols = s.protocols ∧
    s'.conversations = s.conversations ∧
    s'.throughput_samples = s.throughput_samples ∧
    s'.prev_udp_time = s.prev_udp_time ∧
    s'.tls_handshakes = s.tls_handshakes ∧
    s'.tls_versions = s.tls_versions ∧
    s'.tls_cipher_suites = s.tls_cipher_suites ∧
    s'.tls_alerts = s.tls_alerts ∧
    s'.expired_certs = s.expired_certs ∧
    s'.self_signed_certs = s.self_signed_certs ∧
    s'.dns_queries = s.dns_queries ∧
    s'.dns_response_times = s.dns_response_times ∧
    s'.dns_record_types = s.dns_record_types ∧
    s'.pending_dns_queries = s.pending_dns_queries ∧
    s'.dhcp_servers = s.dhcp_servers ∧
    s'.dhcp_discover = s.dhcp_discover ∧
    s'.dhcp_offer = s.dhcp_offer ∧
    s'.dhcp_request = s.dhcp_request ∧
    s'.dhcp_ack = s.dhcp_ack ∧
    s'.dhcp_nak = s.dhcp_nak := by
  have hu : update_stats s p = { s' with malformed_packets := s'.malformed_packets + 1 } := by
    unfold update_stats
    rw [h]
  refine ⟨hu, ?_⟩
  cases hts : p.sniff_timestamp with
  | none =>
    simp only [update_stats_body, hts, Except.error.injEq] at h
    subst h
    simp
  | some t =>
    cases hlen : p.length with
    | none =>
      simp only [update_stats_body, lengthStep, hts, hlen] at h
      exact Except.noConfusion h
    | some lv =>
      cases lv with
      | none =>
        simp only [update_stats_body, lengthStep, hts, hlen, Except.error.injEq] at h
        subst h
        simp
      | some n =>
        simp only [update_stats_body, lengthStep, hts, hlen] at h
        exact Except.noConfusion h

/-- C1 counterexample to the claim as stated: for a record whose timestamp
string fails to parse, the rules fault, `malformed_packets` is incremented by
exactly 1, but `packet_count` is NOT left as it was before the call — it was
already incremented before the fault, so not every other counter is
untouched. -/
theorem C1_counterexample :
    update_faulted (initialize_stats 0) badPkt = true ∧
    (update_stats (initialize_stats 0) badPkt).malformed_packets
      = (initialize_stats 0).malformed_packets + 1 ∧
    (update_stats (initialize_stats 0) badPkt).packet_count
      ≠ (initialize_stats 0).packet_count := by
  decide

/-- The state `update_stats`'s try block has reached when `badPkt`'s
timestamp parse raises. -/
def faultedState : Stats :=
  { initialize_stats 0 with packet_count := 1 }

/-- C1 witness: the fault-isolation theorem applied to the concrete faulting
record `badPkt` from the freshly initialized statistics state. -/
theorem C1_update_stats_fault_isolation_witness :
    update_stats (initialize_stats 0) badPkt
      = { faultedState with malformed_packets := faultedState.malformed_packets + 1 } :=
  (C1_update_stats_fault_isolation (initialize_stats 0) badPkt faultedState (by rfl)).1

/-! ## Claim C2: protocol-distribution sum vs. packet count -/

/-- One `update_stats` call preserves the accounting invariant: the protocol
tallies plus the malformed-record count always equal the packet count.  A
well-formed record adds 1 to the protocol sum and 1 to `packet_count`; a
faulting record adds 1 to `malformed_packets` and 1 to `packet_count`. -/
theorem update_stats_count_invariant (s : Stats) (p : Packet)
    (h : sumValues s.protocols + s.malformed_packets = s.packet_count) :
    sumValues (update_stats s p).protocols + (update_stats s p).malformed_packets
      = (update_stats s p).packet_count := by
  cases hts : p.sniff_timestamp with
  | none =>
    simp only [update_stats, update_stats_body, hts]
    omega
  | some t =>
    cases hlen : p.length with
    | none =>
      simp only [update_stats, update_stats_body, lengthStep, hts, hlen]
      rw [(apply_layer_analyzers_frame _ p t).1, (apply_layer_analyzers_frame _ p t).2.1,
        (apply_layer_analyzers_frame _ p t).2.2]
      simp only [sumValues_dincr]
      omega
    | some lv =>
      cases lv with
      | none =>
        simp only [update_stats, update_stats_body, lengthStep, hts, hlen]
        omega
      | some n =>
        simp only [update_stats, update_stats_body, lengthStep, hts, hlen]
        rw [(apply_layer_analyzers_frame _ p t).1, (apply_layer_analyzers_frame _ p t).2.1,
          (apply_layer_analyzers_frame _ p t).2.2]
        simp only [sumValues_dincr]
        omega

/-- C2 (amended): for every finite record stream processed from
`initialize_stats`, the sum of the protocol-distribution values PLUS
`malformed_packets` equals `packet_count`; equality of the protocol sum with
`packet_count` alone holds exactly when no record faulted. -/
theorem C2_protocol_sum_accounting (t : ℚ) (ps : List Packet) :
    sumValues (process (initialize_stats t) ps).protocols
        + (process (initialize_stats t) ps).malformed_packets
      = (process (initialize_stats t) ps).packet_count := by
  suffices H : ∀ s : Stats, sumValues s.protocols + s.malformed_packets = s.packet_count →
      sumValues (process s ps).protocols + (process s ps).malformed_packets
        = (process s ps).packet_count by
    exact H (initialize_stats t) rfl
  induction ps with
  | nil => exact fun s hs => hs
  | cons p rest ih =>
    intro s hs
    exact ih (update_stats s p) (update_stats_count_invariant s p hs)

/-- C2 counterexample to the claim as stated: a one-record stream whose only
record has an unparseable timestamp ends with `packet_count = 1` but an empty
protocol distribution (sum 0), because `packet_count` is incremented before
the fault and the protocol tally is never reached. -/
theorem C2_counterexample :
    ¬ sumValues (process (initialize_stats 0) [badPkt]).protocols
        = (process (initialize_stats 0) [badPkt]).packet_count := by
  decide

/-! ## Claim C3: the derived baseline metrics -/

/-- Modelled from the spec: `computeMetrics(snapshot)` stated as plain
formulas — `retransmission_rate = retransmissions/packet_count` (0 if
`packet_count` is 0), the arithmetic mean of the two sample lists (0 if the
list is empty), `http_error_rate = sum(http_errors.values())/packet_count`,
and `reset_count = resets`. -/
def spec_compute_metrics (stats : Stats) : BaselineMetrics where
  tcp_retransmission_rate :=
    if stats.packet_count = 0 then 0
    else (stats.retransmissions : ℚ) / (stats.packet_count : ℚ)
  tcp_resets := stats.resets
  avg_tcp_handshake_delay :=
    if stats.tcp_syn_delays = [] then 0
    else stats.tcp_syn_delays.sum / (stats.tcp_syn_delays.length : ℚ)
  avg_udp_jitter :=
    if stats.udp_jitter = [] then 0
    else stats.udp_jitter.sum / (stats.udp_jitter.length : ℚ)
  http_error_rate := (sumValues stats.http_errors : ℚ) / (stats.packet_count : ℚ)

/-- C3: the metrics bucket computed by `update_baseline` (via `safe_divide`)
equals the spec's description for every snapshot: retransmission rate is
`retransmissions/packet_count` and 0 when `packet_count` is 0, the two
averages are arithmetic means and 0 for empty sample lists, the HTTP error
rate is the sum of `http_errors` values over `packet_count`, and the reset
count is `resets`. -/
theorem C3_compute_metrics_spec (stats : Stats) :
    compute_metrics stats = spec_compute_metrics stats := by
  have h1 : ((stats.packet_count : ℚ) = 0) ↔ stats.packet_count = 0 := Nat.cast_eq_zero
  have h2 : ((stats.tcp_syn_delays.length : ℚ) = 0) ↔ stats.tcp_syn_delays = [] := by
    rw [Nat.cast_eq_zero, List.length_eq_zero]
  have h3 : ((stats.udp_jitter.length : ℚ) = 0) ↔ stats.udp_jitter = [] := by
    rw [Nat.cast_eq_zero, List.length_eq_zero]
  unfold compute_metrics spec_compute_metrics safe_divide
  simp only [BaselineMetrics.mk.injEq, h1, h2, h3, ne_eq, ite_not]
  split_ifs <;> simp_all

/-! ## Concrete baseline-store inputs for witnesses and counterexamples -/

/-- The default destination, `network_baselines.json`. -/
def jsonDest : PyPath := { stem := "network_baselines", suffix := ".json" }

/-- A destination path whose suffix already is `.tmp`, so that
`with_suffix('.tmp')` is the identity on it. -/
def tmpDest : PyPath := { stem := "b", suffix := ".tmp" }

/-- A one-packet snapshot (`packet_count = 1`), enough to pass the
empty-capture guard. -/
def stats1 : Stats := update_stats (initialize_stats 0) basePkt

/-- A file system whose destination already holds a valid baseline record. -/
def fsTmp : FS := [(tmpDest, FileContent.valid default_baseline)]

/-- The top-level keys of the baseline file at `path`, when it parses. -/
def fileKeys (fs : FS) (path : PyPath) : Option (List String) :=
  match dget fs path with
  | some (FileContent.valid d) => some (d.map Prod.fst)
  | _ => none

/-! ## Claim C4: atomicity of the persisted baseline on failure -/

/-- C4 (amended): provided the destination path's suffix is not `.tmp` — so
that the temporary sibling `with_suffix('.tmp')` is a distinct file — every
failed `update_baseline` call (one that returns `False`) leaves the
destination file's content exactly as it was before the call, whether the
failure is the empty-capture guard, a load failure, a failure during the
temp-file write, or a failure of the rename itself. -/
theorem C4_failed_update_preserves_destination (fs : FS) (path : PyPath) (weekday : ℕ)
    (stats : Stats) (w : WriteOutcome) (hsuf : path.suffix ≠ ".tmp")
    (hfail : (update_baseline fs path weekday stats w).2 = false) :
    dget (update_baseline fs path weekday stats w).1 path = dget fs path := by
  have htemp : withSuffix path ".tmp" ≠ path := by
    intro he
    exact hsuf ((congrArg PyPath.suffix he).symm ▸ rfl)
  by_cases hpc : stats.packet_count = 0
  · simp [update_baseline, update_baseline_body, hpc]
  · cases hload : load_baseline fs path with
    | error u =>
      simp [update_baseline, update_baseline_body, hpc, hload]
    | ok loaded =>
      cases w with
      | ok =>
        simp [update_baseline, update_baseline_body, save_baseline, hpc, hload,
          dget_dset_self] at hfail
      | failDuringWrite d =>
        simp only [update_baseline, update_baseline_body, save_baseline, hpc, hload,
          ite_false]
        rw [dget_dset_ne _ _ _ _ htemp]
      | failDuringRename =>
        simp only [update_baseline, update_baseline_body, save_baseline, hpc, hload,
          ite_false]
        rw [dget_dset_ne _ _ _ _ htemp]

/-- C4 counterexample to the claim as stated: with the destination configured
as `b.tmp`, `with_suffix('.tmp')` maps the temporary path onto the destination
itself; a write that fails after the temp file is opened (truncating it and
leaving partial bytes) has then already destroyed the destination's previous
content, even though the call failed before the rename. -/
theorem C4_counterexample :
    (update_baseline fsTmp tmpDest 0 stats1 (WriteOutcome.failDuringWrite "x")).2 = false ∧
    dget (update_baseline fsTmp tmpDest 0 stats1 (WriteOutcome.failDuringWrite "x")).1 tmpDest
      ≠ dget fsTmp tmpDest := by
  decide

/-- C4 witness: a write failure against the default `.json` destination leaves
the (absent) destination exactly as it was. -/
theorem C4_failed_update_preserves_destination_witness :
    dget (update_baseline [] jsonDest 0 stats1 (WriteOutcome.failDuringWrite "x")).1 jsonDest
      = dget ([] : FS) jsonDest :=
  C4_failed_update_preserves_destination [] jsonDest 0 stats1
    (WriteOutcome.failDuringWrite "x") (by decide) (by decide)

/-! ## Claim C5: the empty-capture guard -/

/-- C5 (amended): for a snapshot with `packet_count = 0`, `update_baseline`
raises the typed `BaselineError` internally (the body's result is the error),
but its own blanket `except Exception` handler catches it, so the caller
observes a normal return of `False` — not a surfaced typed error — and the
file system (in particular the persisted baseline file) is not modified. -/
theorem C5_empty_capture_returns_false (fs : FS) (path : PyPath) (weekday : ℕ)
    (stats : Stats) (w : WriteOutcome) (h : stats.packet_count = 0) :
    update_baseline fs path weekday stats w = (fs, false) ∧
    (update_baseline_body fs path weekday stats w).2 = Except.error () := by
  unfold update_baseline update_baseline_body
  simp [h]

/-- C5 counterexample to the claim as stated: calling `update_baseline` with
an empty capture returns the normal value `False` with the file system
untouched; the typed `BaselineError` raised by the guard never reaches the
caller (it is visible only inside the try block's result). -/
theorem C5_counterexample :
    update_baseline [] jsonDest 0 (initialize_stats 0) WriteOutcome.ok = ([], false) ∧
    (update_baseline_body [] jsonDest 0 (initialize_stats 0) WriteOutcome.ok).2
      = Except.error () :=
  ⟨rfl, rfl⟩

/-- C5 witness: the amended theorem applied to a concrete empty snapshot on a
weekend day with a pre-existing file. -/
theorem C5_empty_capture_returns_false_witness :
    update_baseline fsTmp jsonDest 6 (initialize_stats 0) WriteOutcome.ok
      = (fsTmp, false) :=
  (C5_empty_capture_returns_false fsTmp jsonDest 6 (initialize_stats 0)
    WriteOutcome.ok rfl).1

/-! ## Claim C6: day-type bucket isolation -/

/-- The other day-type name: `weekend` when updating on a workday and
vice versa. -/
def other_day_type (weekday : ℕ) : String :=
  if weekday < 5 then "weekend" else "workday"

/-- The record `update_baseline` starts from: the loaded persisted record if
it parsed and is truthy, else the default two-bucket record (line 354). -/
def effective_prior (fs : FS) (path : PyPath) : BaselineData :=
  match load_baseline fs path with
  | Except.ok loaded => pyDictOr loaded default_baseline
  | Except.error _ => default_baseline

/-- C6 (amended): every successful `update_baseline` persists exactly the
prior effective record with only the current day-type bucket replaced by the
freshly computed metrics: the current bucket maps to those metrics, every
other key (in particular the other day-type bucket) keeps its prior value,
and the other day-type key is present after the update provided it was
present in the prior effective record — which holds whenever the persisted
file was absent, empty, or itself written by the system, but can fail for a
hand-written file that lacks that key. -/
theorem C6_bucket_isolation (fs : FS) (path : PyPath) (weekday : ℕ) (stats : Stats)
    (w : WriteOutcome) (hok : (update_baseline fs path weekday stats w).2 = true) :
    dget (update_baseline fs path weekday stats w).1 path
      = some (FileContent.valid
          (dset (effective_prior fs path) (get_baseline_type weekday)
            (BucketVal.metrics (compute_metrics stats)))) ∧
    dget (dset (effective_prior fs path) (get_baseline_type weekday)
        (BucketVal.metrics (compute_metrics stats))) (get_baseline_type weekday)
      = some (BucketVal.metrics (compute_metrics stats)) ∧
    (∀ k, k ≠ get_baseline_type weekday →
      dget (dset (effective_prior fs path) (get_baseline_type weekday)
          (BucketVal.metrics (compute_metrics stats))) k
        = dget (effective_prior fs path) k) ∧
    ((dget (effective_prior fs path) (other_day_type weekday)).isSome →
      (dget (dset (effective_prior fs path) (get_baseline_type weekday)
          (BucketVal.metrics (compute_metrics stats))) (other_day_type weekday)).isSome) := by
  have hother : other_day_type weekday ≠ get_baseline_type weekday := by
    unfold other_day_type get_baseline_type
    split_ifs <;> decide
  refine ⟨?_, dget_dset_self _ _ _, fun k hk => dget_dset_ne _ _ _ _ (Ne.symm hk), ?_⟩
  · by_cases hpc : stats.packet_count = 0
    · simp [update_baseline, update_baseline_body, hpc] at hok
    · cases hload : load_baseline fs path with
      | error u =>
        simp [update_baseline, update_baseline_body, hpc, hload] at hok
      | ok loaded =>
        cases w with
        | ok =>
          simp [update_baseline, update_baseline_body, save_baseline, hpc, hload,
            dget_dset_self, effective_prior]
        | failDuringWrite d =>
          simp [update_baseline, update_baseline_body, save_baseline, hpc, hload] at hok
        | failDuringRename =>
          simp [update_baseline, update_baseline_body, save_baseline, hpc, hload] at hok
  · intro hsome
    rw [dget_dset_ne _ _ _ _ (Ne.symm hother)]
    exact hsome

/-- A pre-existing hand-written baseline file holding only a `weekend` key. -/
def fsWeekendOnly : FS :=
  [(jsonDest, FileContent.valid [("weekend", BucketVal.raw "old")])]

/-- C6 counterexample to the claim as stated: updating on a weekend over a
truthy pre-existing record that lacks the `workday` key succeeds and persists
a record whose only top-level key is `weekend`; the `workday` bucket key is
absent after the update. -/
theorem C6_counterexample :
    (update_baseline fsWeekendOnly jsonDest 5 stats1 WriteOutcome.ok).2 = true ∧
    fileKeys (update_baseline fsWeekendOnly jsonDest 5 stats1 WriteOutcome.ok).1 jsonDest
      = some ["weekend"] := by
  decide

/-- C6 witness: a successful update from an absent file on a workday. -/
theorem C6_bucket_isolation_witness :
    dget (update_baseline [] jsonDest 0 stats1 WriteOutcome.ok).1 jsonDest
      = some (FileContent.valid
          (dset (effective_prior [] jsonDest) (get_baseline_type 0)
            (BucketVal.metrics (compute_metrics stats1)))) :=
  (C6_bucket_isolation [] jsonDest 0 stats1 WriteOutcome.ok (by decide)).1

/-! ## Claim C7: UDP inter-arrival jitter -/

/-- A same-flow UDP record at timestamp `t`. -/
def udpPkt (t : ℚ) : Packet :=
  { basePkt with
    sniff_timestamp := some t
    ip := some { src := "10.0.0.1", dst := "10.0.0.2" }
    udp := some { srcport := "5000", dstport := "53" } }

/-- C7: for every UDP record that also carries an IP layer, with flow key
`(srcIP, dstIP, srcPort, dstPort)`: if the key has a prior stored timestamp,
the difference (current minus prior) is appended to `udp_jitter` (otherwise
`udp_jitter` is unchanged), and in all cases the stored timestamp for the key
is overwritten with the current one; in particular three same-flow records at
t = 0, 1.0, 1.3 yield `udp_jitter = [1.0, 0.3]` in that order. -/
theorem C7_udp_jitter_correlation (s : Stats) (p : Packet) (t : ℚ)
    (udp : UDPLayer) (ip : IPLayer) (hu : p.udp = some udp) (hi : p.ip = some ip) :
    (∀ prev, dget s.prev_udp_time (ip.src, ip.dst, udp.srcport, udp.dstport) = some prev →
      (analyze_udp_layer s p t).udp_jitter = s.udp_jitter ++ [t - prev]) ∧
    (dget s.prev_udp_time (ip.src, ip.dst, udp.srcport, udp.dstport) = none →
      (analyze_udp_layer s p t).udp_jitter = s.udp_jitter) ∧
    dget (analyze_udp_layer s p t).prev_udp_time (ip.src, ip.dst, udp.srcport, udp.dstport)
      = some t ∧
    (process (initialize_stats 0) [udpPkt 0, udpPkt 1, udpPkt (13/10)]).udp_jitter
      = [1, 3/10] := by
  refine ⟨?_, ?_, ?_, ?_⟩
  · intro prev hprev
    simp [analyze_udp_layer, hu, hi, hprev]
  · intro hnone
    simp [analyze_udp_layer, hu, hi, hnone]
  · cases hd : dget s.prev_udp_time (ip.src, ip.dst, udp.srcport, udp.dstport) <;>
      simp [analyze_udp_layer, hu, hi, hd, dget_dset_self]
  · have h1 : (1 : ℚ) - 0 = 1 := by norm_num
    have h2 : (13/10 : ℚ) - 1 = 3/10 := by norm_num
    have h3 : max (0 : ℚ) 0 = 0 := max_self 0
    have h4 : max (0 : ℚ) 1 = 1 := max_eq_right (by norm_num)
    have h5 : max (1 : ℚ) (13/10) = 13/10 := max_eq_right (by norm_num)
    have h6 : min (0 : ℚ) 1 = 0 := min_eq_left (by norm_num)
    have h7 : min (0 : ℚ) (13/10) = 0 := min_eq_left (by norm_num)
    simp [process, update_stats, update_stats_body, lengthStep, apply_layer_analyzers,
      analyze_ip_layer, analyze_tcp_layer, analyze_udp_layer, analyze_http_layer,
      analyze_tls_layer, analyze_dns_layer, analyze_dhcp_layer,
      initialize_stats, basePkt, udpPkt, minStart, pyStrOr, dincr, dget, dset, dpop,
      h1, h2, h3, h4, h5, h6, h7]

/-- C7 witness: the first same-flow record stores its own timestamp under the
flow key. -/
theorem C7_udp_jitter_correlation_witness :
    dget (analyze_udp_layer (initialize_stats 0) (udpPkt 1) 1).prev_udp_time
      ("10.0.0.1", "10.0.0.2", "5000", "53") = some 1 :=
  (C7_udp_jitter_correlation (initialize_stats 0) (udpPkt 1) 1
    { srcport := "5000", dstport := "53" } { src := "10.0.0.1", dst := "10.0.0.2" }
    rfl rfl).2.2.1

/-! ## Claim C8: DNS query/response round-trip correlation -/

/-- A DNS query record with transaction id 42 at t = 10.0. -/
def dnsQuery42 : Packet :=
  { basePkt with
    sniff_timestamp := some 10
    dns := some { flags_response := "0", response_time := false,
                  qry_name := some "example.com", qry_type := "1", id := "42" } }

/-- A DNS response record with transaction id 42 at t = 10.25. -/
def dnsResponse42 : Packet :=
  { basePkt with
    sniff_timestamp := some (41/4)
    dns := some { flags_response := "1", response_time := true,
                  qry_name := none, qry_type := "1", id := "42" } }

/-- C8: every DNS query record overwrites the pending-table entry for its
transaction id with the query timestamp (last query with a given id wins);
every DNS response record whose transaction id is pending appends
(response minus pending timestamp) to `dns_response_times` and removes the
pending entry; in particular a query with id 42 at t = 10.0 followed by a
response with id 42 at t = 10.25 yields `dns_response_times = [0.25]` with
id 42 no longer pending.  (The removal conjunct assumes the embedded pending
dictionary's representation invariant: distinct keys, as every Python dict
satisfies.) -/
theorem C8_dns_correlation (s : Stats) (p : Packet) (t : ℚ) (dns : DNSLayer)
    (hd : p.dns = some dns) (hwf : dictWF s.pending_dns_queries) :
    (dns.flags_response = "0" →
      dget (analyze_dns_layer s p t).pending_dns_queries dns.id = some t) ∧
    (∀ q, dns.flags_response = "1" → dget s.pending_dns_queries dns.id = some q →
      (analyze_dns_layer s p t).dns_response_times = s.dns_response_times ++ [t - q] ∧
      dget (analyze_dns_layer s p t).pending_dns_queries dns.id = none) ∧
    (process (initialize_stats 0) [dnsQuery42, dnsResponse42]).dns_response_times
      = [1/4] ∧
    dget (process (initialize_stats 0) [dnsQuery42, dnsResponse42]).pending_dns_queries
      "42" = none := by
  have hrun : (process (initialize_stats 0) [dnsQuery42, dnsResponse42]).dns_response_times
        = [1/4] ∧
      dget (process (initialize_stats 0) [dnsQuery42, dnsResponse42]).pending_dns_queries
        "42" = none := by
    have h1 : (41/4 : ℚ) - 10 = 1/4 := by norm_num
    have h3 : max (0 : ℚ) 10 = 10 := max_eq_right (by norm_num)
    have h4 : max (10 : ℚ) (41/4) = 41/4 := max_eq_right (by norm_num)
    have h5 : min (10 : ℚ) (41/4) = 10 := min_eq_left (by norm_num)
    simp [process, update_stats, update_stats_body, lengthStep, apply_layer_analyzers,
      analyze_ip_layer, analyze_tcp_layer, analyze_udp_layer, analyze_http_layer,
      analyze_tls_layer, analyze_dns_layer, analyze_dhcp_layer,
      initialize_stats, basePkt, dnsQuery42, dnsResponse42, minStart, pyStrOr,
      dincr, dget, dset, dpop, h1, h3, h4, h5]
  refine ⟨?_, ?_, hrun.1, hrun.2⟩
  · intro h0
    cases hrt : dns.response_time <;> cases hqn : dns.qry_name <;>
      simp [analyze_dns_layer, hd, h0, hrt, hqn, dget_dset_self]
  · intro q h1 hq
    cases hrt : dns.response_time <;> cases hqn : dns.qry_name <;>
      simp [analyze_dns_layer, hd, h1, hrt, hqn, hq, dget_dpop_self _ _ hwf]

/-- C8 witness: a concrete query stores its timestamp under its id. -/
theorem C8_dns_correlation_witness :
    dget (analyze_dns_layer (initialize_stats 0) dnsQuery42 10).pending_dns_queries "42"
      = some 10 :=
  (C8_dns_correlation (initialize_stats 0) dnsQuery42 10
    { flags_response := "0", response_time := false,
      qry_name := some "example.com", qry_type := "1", id := "42" }
    rfl (by simp [dictWF, initialize_stats])).1 rfl

/-! ## Claim C9: the transient correlation tables at finalize -/

/-- C9 (amended): the finalized snapshot does not depend on the UDP
last-seen-timestamp map — `prev_udp_time` is dropped by `_cleanup_stats` — but
the pending DNS query map is NOT removed: the finalized snapshot exposes
`pending_dns_queries` exactly as it was. -/
theorem C9_cleanup_tables (s : Stats) (m : List (FlowKey × ℚ)) :
    cleanup_stats { s with prev_udp_time := m } = cleanup_stats s ∧
    (cleanup_stats s).pending_dns_queries = s.pending_dns_queries :=
  ⟨rfl, rfl⟩

/-- C9 counterexample to the claim as stated: a capture ending with an
unanswered DNS query finalizes to a snapshot whose pending DNS query table is
still present and non-empty — `_cleanup_stats` (lines 290-305) deletes only
`prev_udp_time`. -/
theorem C9_counterexample :
    (cleanup_stats (process (initialize_stats 0) [dnsQuery42])).pending_dns_queries
      ≠ [] := by
  decide

/-! ## Claim C10: stringified conversation keys at finalize -/

/-- Helper for C10: folding `dset` over entries none of which map to `key`
leaves the lookup of `key` unchanged. -/
theorem dget_foldl_dset_of_notin (l : List (ConvKey × ℕ)) (acc : List (String × ℕ))
    (key : String) (h : ∀ e ∈ l, joinKey e.1 ≠ key) :
    dget (l.foldl (fun acc kv => dset acc (joinKey kv.1) kv.2) acc) key = dget acc key := by
  induction l generalizing acc with
  | nil => rfl
  | cons e rest ih =>
    simp only [List.foldl_cons]
    rw [ih _ fun a ha => h a (List.mem_cons_of_mem _ ha)]
    exact dget_dset_ne _ _ _ _ (h e (List.mem_cons_self _ _))

/-- C10 (amended): provided no two `conversations` entries produce the same
joined string key (which holds for genuine dotted IP addresses, where the
underscore-join is injective), every entry keyed by an observed `(src, dst)`
tuple appears in the finalized map under `src ++ "_" ++ dst` with its count
unchanged, and every string-keyed entry is kept as-is.  Without that proviso
a later colliding entry overwrites an earlier one's count. -/
theorem C10_conversations_stringified (l : List (ConvKey × ℕ))
    (hinj : l.Pairwise fun a b => joinKey a.1 ≠ joinKey b.1) :
    ∀ k v, (k, v) ∈ l → dget (convertConversations l) (joinKey k) = some v := by
  unfold convertConversations
  suffices H : ∀ acc : List (String × ℕ), ∀ k v, (k, v) ∈ l →
      dget (l.foldl (fun acc kv => dset acc (joinKey kv.1) kv.2) acc) (joinKey k) = some v from
    fun k v hm => H [] k v hm
  induction l with
  | nil => intro acc k v hm; cases hm
  | cons e rest ih =>
    intro acc k v hm
    obtain ⟨hhead, hrest⟩ := List.pairwise_cons.mp hinj
    simp only [List.foldl_cons]
    rcases List.mem_cons.mp hm with he | hm'
    · obtain ⟨rfl, rfl⟩ : k = e.1 ∧ v = e.2 := by
        rw [Prod.ext_iff] at he
        exact ⟨he.1, he.2⟩
      rw [dget_foldl_dset_of_notin _ _ _ fun a ha => (hhead a ha).symm]
      exact dget_dset_self _ _ _
    · exact ih hrest _ k v hm'

/-- Two observed tuples whose joined string keys collide. -/
def convCollide : List (ConvKey × ℕ) :=
  [(ConvKey.pair "a_b" "c", 1), (ConvKey.pair "a" "b_c", 2)]

/-- C10 counterexample to the claim as stated: the tuples `("a_b", "c")` and
`("a", "b_c")` both join to `"a_b_c"`; after conversion the earlier entry's
count 1 is not found — the later entry overwrote it. -/
theorem C10_counterexample :
    (ConvKey.pair "a_b" "c", 1) ∈ convCollide ∧
    dget (convertConversations convCollide) (joinKey (ConvKey.pair "a_b" "c")) ≠ some 1 := by
  decide

/-- A collision-free conversations map with one tuple key and one string key. -/
def convSample : List (ConvKey × ℕ) :=
  [(ConvKey.pair "10.0.0.1" "10.0.0.2", 3), (ConvKey.str "x", 4)]

/-- C10 witness: a tuple-keyed entry with genuine IP addresses is found under
its joined key with its count unchanged. -/
theorem C10_conversations_stringified_witness :
    dget (convertConversations convSample) (joinKey (ConvKey.pair "10.0.0.1" "10.0.0.2"))
      = some 3 :=
  C10_conversations_stringified convSample (by decide)
    (ConvKey.pair "10.0.0.1" "10.0.0.2") 3 (by decide)

end PacketInsight
